import Mathlib

/-!
Verification of the pre-checker website analysis tool.

This file gives a shallow embedding of the pure logic of the tool's Python
sources (`config.py`, `main.py`, `pagespeed_analyzer.py`, `website_analyzer.py`,
`browser_manager.py`) and proves or refutes the specification claims about it.

Modelling conventions:
* Python strings are Lean `String`s; the Python primitives `str.replace`,
  `str.strip`, `str.startswith` and the substring test `in` are modelled by
  executable character-list functions (`strReplace`, `strStrip`,
  `strStartsWith`, `strContains`) with the same semantics (replace all
  non-overlapping occurrences left to right, trim ASCII whitespace at both
  ends, prefix test, substring test).
* Python numbers read from the browser are modelled as `Int` where only
  comparisons and integer arithmetic occur, and as `ℚ` where Python float
  division occurs (the scroll-schedule arithmetic); the claims under study
  are order/clipping properties that are insensitive to this choice.
* Python dicts with a fixed key set become Lean structures; dicts used as
  open key-value maps (the PageSpeed per-strategy result dicts) become
  association lists `List (String × JVal)` so that the presence or absence
  of a literal key (for example `"fallback"` versus `"used_fallback"`)
  stays observable.
* Effectful browser calls are parametrised by their observed values: page
  heights, harvested error batches, and whether a call raises, are inputs
  to the embedded functions; side effects that the claims mention (window
  resizes, `driver.quit` attempts) are recorded explicitly.
* Wall-clock values (`time.time()` timestamps, `time.sleep` pauses) and the
  Python-set-ordered `error_types_found` list are omitted from the embedded
  records: no claim depends on them.
-/

/-! ## Python string primitives, modelled on character lists -/

/-- Python's default `str.strip` whitespace set (ASCII part; all inputs the
claims use are ASCII). -/
def isPySpace (c : Char) : Bool :=
  c == ' ' || c == '\t' || c == '\n' || c == '\r' || c == '\x0b' || c == '\x0c'

/-- Model of Python `str.strip()`: drop whitespace from both ends. -/
def stripChars (s : List Char) : List Char :=
  ((s.dropWhile isPySpace).reverse.dropWhile isPySpace).reverse

/-- Model of Python `str.strip()` on strings. -/
def strStrip (s : String) : String := String.mk (stripChars s.toList)

/-- Fuel-indexed worker for `replaceChars`: replace each leftmost
non-overlapping occurrence of `pat` by `rep`, scanning left to right, as
Python `str.replace` does.  The fuel is the length of the scanned list, so
the recursion is structural and kernel-reducible. -/
def replaceCharsFuel (pat rep : List Char) : Nat → List Char → List Char
  | 0, s => s
  | _ + 1, [] => []
  | fuel + 1, c :: rest =>
    if pat.isPrefixOf (c :: rest) && !pat.isEmpty then
      rep ++ replaceCharsFuel pat rep fuel ((c :: rest).drop pat.length)
    else
      c :: replaceCharsFuel pat rep fuel rest

/-- Model of Python `str.replace` on character lists. -/
def replaceChars (s pat rep : List Char) : List Char :=
  replaceCharsFuel pat rep s.length s

/-- Model of Python `s.replace(pat, rep)`. -/
def strReplace (s pat rep : String) : String :=
  String.mk (replaceChars s.toList pat.toList rep.toList)

/-- Model of Python `s.startswith(p)`. -/
def strStartsWith (s p : String) : Bool := p.toList.isPrefixOf s.toList

/-- Occurrence test on character lists: `pat` occurs somewhere in the list. -/
def containsList (pat : List Char) : List Char → Bool
  | [] => pat.isEmpty
  | c :: rest => pat.isPrefixOf (c :: rest) || containsList pat rest

/-- Model of the Python substring test `pat in s`. -/
def strContains (s pat : String) : Bool := containsList pat.toList s.toList

/-! ## config.py -/

/-- The two viewport profiles of `BROWSER_CONFIG['window_size']`. -/
inductive Viewport where
  | desktop
  | mobile
deriving DecidableEq, Repr

/-- Source: `config.BROWSER_CONFIG['window_size']`. -/
def browser_window_size : Viewport → Int × Int
  | .desktop => (1920, 1080)
  | .mobile => (375, 667)

/-- Source: `config.OUTPUT_CONFIG['file_naming']['suffixes']`. -/
def file_naming_suffix : Viewport → String
  | .desktop => "desktop"
  | .mobile => "mobile"

/-- Source: `config.URL_CONFIG['allowed_schemes']`. -/
def allowed_schemes : List String := ["http", "https"]

/-- Source: `config.PAGESPEED_CONFIG['strategies']`. -/
def pagespeed_strategies : List String := ["mobile", "desktop"]

/-- Source: `config.sanitize_filename(url, viewport)` — strip the protocol,
`www.` and the substrings `.com`/`.org`/`.net`, replace dots, dashes and
slashes with underscores, and append the viewport suffix. -/
def sanitize_filename (url : String) (viewport : Viewport) : String :=
  let domain := strReplace (strReplace (strReplace url "https://" "") "http://" "") "www." ""
  let domain := strReplace (strReplace (strReplace domain ".com" "") ".org" "") ".net" ""
  let domain := strReplace (strReplace (strReplace domain "." "_") "-" "_") "/" "_"
  domain ++ "_" ++ file_naming_suffix viewport

/-! ## main.py — URL validation -/

/-- The per-URL normalisation performed inside `main.validate_urls`:
`url.strip()`, then prepend `https://` when the URL does not start with
`http://` or `https://`. -/
def normalizeUrl (url : String) : String :=
  let url := strStrip url
  if strStartsWith url "http://" || strStartsWith url "https://" then url
  else "https://" ++ url

/-- Source: `main.validate_urls` — normalise each URL, keep it when
`any(scheme in url for scheme in URL_CONFIG['allowed_schemes'])` holds
(a substring test, not a scheme test), otherwise drop it. -/
def validate_urls (urls : List String) : List String :=
  urls.filterMap fun url =>
    let url := normalizeUrl url
    if allowed_schemes.any (fun scheme => strContains url scheme) then some url
    else none

/-! ## pagespeed_analyzer.py — SimplePerformanceAnalyzer -/

/-- The two metric entries that `_calculate_performance_score` reads via
`metrics.get(key, 0)`; `none` models an absent key. -/
structure Metrics where
  load_time : Option Int := none
  page_size : Option Int := none
deriving DecidableEq, Repr

/-- Source: `SimplePerformanceAnalyzer._calculate_performance_score`
(the `try` body): start from 100, deduct for slow load times and large
page areas, clamp to `[0, 100]`; Python's `round` on the resulting int is
the identity. -/
def calculate_performance_score (m : Metrics) : Int :=
  let score : Int := 100
  let load_time := m.load_time.getD 0
  let score :=
    if load_time > 5000 then score - 30
    else if load_time > 3000 then score - 20
    else if load_time > 2000 then score - 10
    else score
  let page_size := m.page_size.getD 0
  let score :=
    if page_size > 2000000 then score - 20
    else if page_size > 1000000 then score - 10
    else score
  max 0 (min 100 score)

/-- Source: `_calculate_performance_score` including its `except` branch,
which returns the default score 50 when the body raises. -/
def calculate_performance_score_run (raises : Bool) (m : Metrics) : Int :=
  if raises then 50 else calculate_performance_score m

/-- Spec-side restatement of the score formula, written from the words of
the claim: 100 minus the load-time deduction minus the page-area deduction,
clamped to `[0, 100]`.  Used to compare the source function against the
claim. -/
def spec_performance_score (load_time page_size : Int) : Int :=
  let d1 : Int :=
    if load_time > 5000 then 30
    else if load_time > 3000 then 20
    else if load_time > 2000 then 10
    else 0
  let d2 : Int :=
    if page_size > 2000000 then 20
    else if page_size > 1000000 then 10
    else 0
  max 0 (min 100 (100 - d1 - d2))

/-! ## website_analyzer.py — `_analyze_pagespeed_with_fallback`

The per-strategy PageSpeed result dicts are open key-value maps in Python
(`'error'`, `'score'`, `'fallback'`, `'note'`, ...), and the claim under
study is about the literal key written into them, so they are embedded as
association lists over a small JSON-like value type. -/

/-- Values stored in a PageSpeed result dict. -/
inductive JVal where
  | s : String → JVal
  | n : Int → JVal
  | b : Bool → JVal
deriving DecidableEq, Repr

/-- Model of Python `str(v)` for the stored values. -/
def JVal.pyStr : JVal → String
  | .s x => x
  | .n i => toString i
  | .b true => "True"
  | .b false => "False"

/-- A Python dict with string keys, as an association list. -/
abbrev PSDict := List (String × JVal)

/-- Model of Python `d[k]` lookup (`none` when the key is absent). -/
def PSDict.getVal (d : PSDict) (k : String) : Option JVal :=
  (List.find? (fun p => p.1 == k) d).map Prod.snd

/-- Model of Python `k in d`. -/
def PSDict.hasKey (d : PSDict) (k : String) : Bool :=
  List.any d (fun p => p.1 == k)

/-- Model of Python `d[k] = v`: replace the binding when the key exists,
append it otherwise. -/
def PSDict.setVal (d : PSDict) (k : String) (v : JVal) : PSDict :=
  if PSDict.hasKey d k then List.map (fun p => if p.1 == k then (k, v) else p) d
  else d ++ [(k, v)]

/-- Source: the `api_failed` scan of `_analyze_pagespeed_with_fallback` —
some strategy result has an `'error'` entry whose string form contains
`'429'`. -/
def api_failed (results : List (String × PSDict)) : Bool :=
  results.any fun p =>
    match PSDict.getVal p.2 "error" with
    | some v => strContains (JVal.pyStr v) "429"
    | none => false

/-- Source: the marking loop of `_analyze_pagespeed_with_fallback` — every
strategy result without an `'error'` entry gets `result['fallback'] = True`
and `result['note'] = note`. -/
def mark_fallback (note : String) (results : List (String × PSDict)) :
    List (String × PSDict) :=
  results.map fun p =>
    if PSDict.hasKey p.2 "error" then p
    else (p.1, PSDict.setVal (PSDict.setVal p.2 "fallback" (.b true)) "note" (.s note))

/-- Source: `SimplePerformanceAnalyzer.analyze_all_strategies` — run the
fallback analyzer once per strategy of `PAGESPEED_CONFIG['strategies']`;
the per-strategy outcome is abstracted as the input function `f`. -/
def simple_analyze_all_strategies (f : String → PSDict) : List (String × PSDict) :=
  pagespeed_strategies.map fun s => (s, f s)

/-- The two shapes `_analyze_pagespeed_with_fallback` can return: a dict
keyed by strategy, or the final `{'error': ...}` dict. -/
inductive PSOutput where
  | strategies : List (String × PSDict) → PSOutput
  | errorDict : String → PSOutput
deriving DecidableEq, Repr

/-- Source: `WebsiteAnalyzer._analyze_pagespeed_with_fallback`.

Inputs model the effectful calls: `primary` is what
`PageSpeedAPI().analyze_all_strategies(url)` returns (`Except.error e`
when it raises `e`); `fbExc` is `some e` when
`SimplePerformanceAnalyzer.analyze_all_strategies` raises `e` (the call is
deterministic, so both invocation sites observe the same outcome); `fb`
gives the per-strategy fallback result dict otherwise.

Control flow of the source: a raising primary goes to the outer `except`,
which runs the fallback inside a nested `try`; a 429-marked primary result
runs the fallback inside the outer `try`, so a raising fallback there
propagates to the outer `except` and the fallback is attempted a second
time. -/
def analyze_pagespeed_with_fallback (primary : Except String (List (String × PSDict)))
    (fbExc : Option String) (fb : String → PSDict) : PSOutput :=
  let onExcept : String → PSOutput := fun e =>
    match fbExc with
    | none =>
        .strategies
          (mark_fallback "Using fallback analyzer due to API error"
            (simple_analyze_all_strategies fb))
    | some _ => .errorDict ("Both API and fallback analysis failed: " ++ e)
  match primary with
  | .error e => onExcept e
  | .ok results =>
    if api_failed results then
      match fbExc with
      | none =>
          .strategies
            (mark_fallback "Using fallback analyzer due to API rate limit"
              (simple_analyze_all_strategies fb))
      | some fe => onExcept fe
    else .strategies results

/-! ## browser_manager.py — scroll schedule -/

/-- Source: the step-distance computation shared by
`BrowserManager.scroll_page` and `scroll_and_capture_errors`:
`scroll_distance = total_height - viewport_height`, falling back to
`total_height` when that is `<= 0`, divided by the number of steps.
Python float division is modelled by exact division in `ℚ`. -/
def step_distance (totalHeight viewportHeight : ℚ) (steps : ℕ) : ℚ :=
  (if totalHeight - viewportHeight ≤ 0 then totalHeight else totalHeight - viewportHeight) /
    steps

/-- The walk of `current_position` through the scroll loop: each step adds
`step` and then clips to `totalHeight` (`if current_position > total_height:
current_position = total_height`); the clipped value is kept as the next
step's base, exactly as in the source. -/
def scroll_targets_from (totalHeight step : ℚ) : ℕ → ℚ → List ℚ
  | 0, _ => []
  | n + 1, cur =>
    let next := cur + step
    let clipped := if next > totalHeight then totalHeight else next
    clipped :: scroll_targets_from totalHeight step n clipped

/-- The list of per-step `window.scrollTo` targets issued by the scroll
loop, starting from position 0. -/
def scroll_targets (totalHeight viewportHeight : ℚ) (steps : ℕ) : List ℚ :=
  scroll_targets_from totalHeight (step_distance totalHeight viewportHeight steps) steps 0

/-- The scroll schedule of `BrowserManager.scroll_page`: the per-step
targets followed by the final forced
`window.scrollTo(0, document.body.scrollHeight)`, whose target is the
page's total height (the model takes the page height as stable after the
initial lazy-loading settle pass, which is when the source samples it). -/
structure ScrollSchedule where
  stepTargets : List ℚ
  finalTarget : ℚ
deriving DecidableEq, Repr

/-- Source: `BrowserManager.scroll_page` — the scroll schedule it issues
for a page of height `totalHeight` (after the lazy-loading update) and a
viewport of height `viewportHeight`. -/
def scroll_page_schedule (totalHeight viewportHeight : ℚ) (steps : ℕ) : ScrollSchedule :=
  { stepTargets := scroll_targets totalHeight viewportHeight steps
    finalTarget := totalHeight }

/-! ## browser_manager.py — error harvesting -/

/-- One raw harvest observed by `get_console_errors`: the
`window.consoleErrors` batch, the error-looking DOM elements, and the
SEVERE/WARNING browser log entries.  Individual entries are abstracted to
their message strings; the claims only count and relocate them. -/
structure Harvest where
  console_errors : List String
  page_errors : List String
  browser_logs : List String
deriving DecidableEq, Repr

/-- The dict built by `BrowserManager.get_console_errors` (its success
path); `time.time()` timestamps and the derived `error_types` counts are
omitted, no claim reads them. -/
structure ErrorReport where
  console_errors : List String
  page_errors : List String
  browser_logs : List String
  total_errors : ℕ
  has_errors : Bool
deriving DecidableEq, Repr

/-- Source: `BrowserManager.get_console_errors` —
`total_errors = len(console_errors) + len(page_errors) + len(browser_logs)`
and `has_errors = total_errors > 0`. -/
def get_console_errors (h : Harvest) : ErrorReport :=
  let total := h.console_errors.length + h.page_errors.length + h.browser_logs.length
  { console_errors := h.console_errors
    page_errors := h.page_errors
    browser_logs := h.browser_logs
    total_errors := total
    has_errors := total > 0 }

/-- One `{'position': ..., 'errors': ...}` record appended to
`scroll_errors` during the error-capture scroll. -/
structure CheckpointRecord where
  position : ℚ
  errors : ErrorReport
deriving DecidableEq, Repr

/-- The dict built by `BrowserManager.scroll_and_capture_errors`
(timestamps and the Python-set-ordered `error_types_found` list omitted). -/
structure ScrollReport where
  console_errors : List String
  page_errors : List String
  browser_logs : List String
  scroll_errors : List CheckpointRecord
  capture_status : String
  capture_error : Option String
  total_errors : ℕ
  has_errors : Bool
  scroll_positions_with_errors : List ℚ
deriving DecidableEq, Repr

/-- The environment a run of `scroll_and_capture_errors` observes: the
page height before and after the lazy-loading settle pass, the viewport
height, the harvest visible at the `i`-th scroll checkpoint, and the
harvest visible at the final capture after the forced bottom scroll. -/
structure ScrollEnv where
  initialHeight : ℚ
  updatedHeight : ℚ
  viewportHeight : ℚ
  checkpointHarvest : ℕ → Harvest
  finalHarvest : Harvest

/-- The effective page height used by the scroll: the initial height,
replaced by the updated height when lazy loading made the page taller
(`if updated_height > total_height`). -/
def effective_height (env : ScrollEnv) : ℚ :=
  if env.updatedHeight > env.initialHeight then env.updatedHeight else env.initialHeight

/-- Source: `scroll_and_capture_errors` hardcodes `steps = 10`. -/
def scroll_capture_steps : ℕ := 10

/-- The per-checkpoint data of the error-capture scroll: the `i`-th scroll
target paired with the report harvested there
(`current_errors = self.get_console_errors()`). -/
def scroll_checkpoints (env : ScrollEnv) : List (ℚ × ErrorReport) :=
  (scroll_targets (effective_height env) env.viewportHeight scroll_capture_steps).enum.map
    fun p => (p.2, get_console_errors (env.checkpointHarvest p.1))

/-- Source: `BrowserManager.scroll_and_capture_errors` (success path).
At each checkpoint the harvested report is appended to `scroll_errors`
only when `current_errors['total_errors'] > 0`; after the walk one final
harvest fills the top-level buckets, and
`total_errors = len(console_errors) + len(page_errors) + len(browser_logs)
+ len(scroll_errors)`. -/
def scroll_and_capture_errors (env : ScrollEnv) : ScrollReport :=
  let recs := (scroll_checkpoints env).filterMap fun p =>
    if p.2.total_errors > 0 then some ⟨p.1, p.2⟩ else none
  let fin := get_console_errors env.finalHarvest
  let total := fin.console_errors.length + fin.page_errors.length +
    fin.browser_logs.length + recs.length
  { console_errors := fin.console_errors
    page_errors := fin.page_errors
    browser_logs := fin.browser_logs
    scroll_errors := recs
    capture_status := "success"
    capture_error := none
    total_errors := total
    has_errors := total > 0
    scroll_positions_with_errors := recs.map CheckpointRecord.position }

/-- Spec-side total written from the words of the claim: the flat sum of
all bucket lengths where each nested `scroll_errors` checkpoint report
contributes its individual error entries, not one unit per record. -/
def claim_flat_total (r : ScrollReport) : ℕ :=
  r.console_errors.length + r.page_errors.length + r.browser_logs.length +
    (r.scroll_errors.map fun c =>
      c.errors.console_errors.length + c.errors.page_errors.length +
        c.errors.browser_logs.length).sum

/-! ## browser_manager.py — take_screenshot and close -/

/-- How the `driver.save_screenshot` call inside `take_screenshot` ends:
returns `True`, returns `False` (its return value is ignored by the
source), or raises. -/
inductive CaptureOutcome where
  | ok
  | fail
  | raisesExc
deriving DecidableEq, Repr

/-- The observable outcome of a `take_screenshot` call: the boolean it
returns and the arguments of the `driver.set_window_size` calls it made,
in order. -/
structure ShotRun where
  success : Bool
  sizeEvents : List (Int × Int)
deriving DecidableEq, Repr

/-- Source: `BrowserManager.take_screenshot`.  With `full_page=True` the
window is resized to the page's scroll width/height, the capture runs, and
the window is set back to `BROWSER_CONFIG['window_size'][viewport]`; any
exception is caught and `False` is returned, so a raising capture skips
the restoring resize. -/
def take_screenshot (viewport : Viewport) (fullPage : Bool)
    (pageWidth pageHeight : Int) (capture : CaptureOutcome) : ShotRun :=
  if fullPage then
    match capture with
    | .raisesExc => { success := false, sizeEvents := [(pageWidth, pageHeight)] }
    | _ =>
        { success := true
          sizeEvents := [(pageWidth, pageHeight), browser_window_size viewport] }
  else
    match capture with
    | .raisesExc => { success := false, sizeEvents := [] }
    | _ => { success := true, sizeEvents := [] }

/-- The state of a `BrowserManager` that `close` can observe and change:
whether `self.driver` is set, and how many `driver.quit()` calls have been
attempted on it so far. -/
structure BrowserSession where
  hasDriver : Bool
  quitAttempts : ℕ
deriving DecidableEq, Repr

/-- Source: `BrowserManager.close` — `if self.driver: self.driver.quit()`
inside a `try/except` that swallows every exception; `self.driver` is
never cleared.  `quitRaises` records whether the `quit` call raises; the
exception is caught, so it does not affect the resulting state. -/
def BrowserManager.close (quitRaises : Bool) (s : BrowserSession) : BrowserSession :=
  if s.hasDriver then
    let s := { s with quitAttempts := s.quitAttempts + 1 }
    if quitRaises then s else s
  else s

/-! ## Concrete inputs used by counterexamples and witnesses -/

/-- A primary PageSpeed API outcome whose mobile strategy carries a
rate-limit error. -/
def c1_primary : Except String (List (String × PSDict)) :=
  .ok [("mobile", [("error", .s "429 Client Error: Too Many Requests")]),
       ("desktop", [("score", .n 90)])]

/-- A fallback analyzer outcome: every strategy succeeds with score 80. -/
def c1_fb : String → PSDict := fun _ => [("score", .n 80)]

/-- A scroll environment whose first checkpoint harvest holds two console
errors and whose other harvests are empty. -/
def c3_env : ScrollEnv :=
  { initialHeight := 1000, updatedHeight := 1000, viewportHeight := 400,
    checkpointHarvest := fun i => if i = 0 then ⟨["err one", "err two"], [], []⟩ else ⟨[], [], []⟩,
    finalHarvest := ⟨[], [], []⟩ }

/-- A scroll environment in which every harvest is empty. -/
def c5_env : ScrollEnv :=
  { initialHeight := 800, updatedHeight := 800, viewportHeight := 300,
    checkpointHarvest := fun _ => ⟨[], [], []⟩,
    finalHarvest := ⟨[], [], []⟩ }

/-! ## Helper lemmas -/

theorem containsList_of_isPrefixOf {pat l : List Char} (h : pat.isPrefixOf l = true) :
    containsList pat l = true := by
  cases l with
  | nil =>
    cases pat with
    | nil => rfl
    | cons c cs => simp [List.isPrefixOf] at h
  | cons c rest => simp [containsList, h]

theorem contains_http_normalize (u : String) :
    strContains (normalizeUrl u) "http" = true := by
  unfold normalizeUrl strContains
  by_cases h : (strStartsWith (strStrip u) "http://" || strStartsWith (strStrip u) "https://") = true
  · rw [if_pos h]
    rcases Bool.or_eq_true_iff.mp h with h1 | h1
    · unfold strStartsWith at h1
      have hp := List.isPrefixOf_iff_prefix.mp h1
      have hh : "http".toList <+: "http://".toList :=
        List.isPrefixOf_iff_prefix.mp (by decide)
      exact containsList_of_isPrefixOf (List.isPrefixOf_iff_prefix.mpr (hh.trans hp))
    · unfold strStartsWith at h1
      have hp := List.isPrefixOf_iff_prefix.mp h1
      have hh : "http".toList <+: "https://".toList :=
        List.isPrefixOf_iff_prefix.mp (by decide)
      exact containsList_of_isPrefixOf (List.isPrefixOf_iff_prefix.mpr (hh.trans hp))
  · rw [if_neg h]
    have hdata : ("https://" ++ strStrip u).toList = "https://".toList ++ (strStrip u).toList := by
      simp [String.toList, String.data_append]
    rw [hdata]
    have hh : "http".toList <+: "https://".toList :=
      List.isPrefixOf_iff_prefix.mp (by decide)
    have hp : "https://".toList <+: "https://".toList ++ (strStrip u).toList :=
      List.prefix_append _ _
    exact containsList_of_isPrefixOf (List.isPrefixOf_iff_prefix.mpr (hh.trans hp))

theorem getVal_map_update (k : String) (v : JVal) :
    ∀ d : PSDict, PSDict.hasKey d k = true →
      PSDict.getVal (d.map fun p => if p.1 == k then (k, v) else p) k = some v := by
  intro d
  induction d with
  | nil => intro h; simp [PSDict.hasKey] at h
  | cons p d ih =>
    intro h
    by_cases hp : p.1 == k
    · simp [PSDict.getVal, List.find?, hp]
    · have h' : PSDict.hasKey d k = true := by
        simpa [PSDict.hasKey, hp] using h
      simpa [PSDict.getVal, List.find?, hp] using ih h'

theorem getVal_append_single (k : String) (v : JVal) :
    ∀ d : PSDict, PSDict.hasKey d k = false →
      PSDict.getVal (d ++ [(k, v)]) k = some v := by
  intro d
  induction d with
  | nil => intro _; simp [PSDict.getVal, List.find?]
  | cons p d ih =>
    intro h
    have hp : (p.1 == k) = false := by
      by_contra hc
      simp [PSDict.hasKey] at h
      simp at hc
      exact absurd h.1 (by simpa using hc)
    have h' : PSDict.hasKey d k = false := by
      simpa [PSDict.hasKey, hp] using h
    simpa [PSDict.getVal, List.find?, hp] using ih h'

theorem getVal_map_update_other (k k' : String) (v : JVal) (hk : k' ≠ k) :
    ∀ d : PSDict,
      PSDict.getVal (d.map fun p => if p.1 == k then (k, v) else p) k' =
        PSDict.getVal d k' := by
  intro d
  induction d with
  | nil => rfl
  | cons p d ih =>
    by_cases hp : p.1 == k
    · have hkk' : (k == k') = false := by
        simp only [beq_eq_false_iff_ne, ne_eq]
        exact fun hc => hk hc.symm
      have hpe : p.1 = k := by simpa using hp
      have hpk' : (p.1 == k') = false := by simp [hpe, hkk']
      simpa [PSDict.getVal, List.find?, hp, hkk', hpk'] using ih
    · by_cases hpk' : p.1 == k'
      · simp [PSDict.getVal, List.find?, hp, hpk']
      · simpa [PSDict.getVal, List.find?, hp, hpk'] using ih

theorem getVal_append_single_other (k k' : String) (v : JVal) (hk : k' ≠ k) :
    ∀ d : PSDict, PSDict.getVal (d ++ [(k, v)]) k' = PSDict.getVal d k' := by
  intro d
  induction d with
  | nil =>
    have hkk' : (k == k') = false := by
      simp only [beq_eq_false_iff_ne, ne_eq]
      exact fun hc => hk hc.symm
    simp [PSDict.getVal, List.find?, hkk']
  | cons p d ih =>
    by_cases hpk' : p.1 == k'
    · simp [PSDict.getVal, List.find?, hpk']
    · simpa [PSDict.getVal, List.find?, hpk'] using ih

theorem getVal_setVal_self (d : PSDict) (k : String) (v : JVal) :
    PSDict.getVal (PSDict.setVal d k v) k = some v := by
  unfold PSDict.setVal
  by_cases h : PSDict.hasKey d k
  · rw [if_pos h]; exact getVal_map_update k v d h
  · rw [if_neg h]
    exact getVal_append_single k v d (by simpa using h)

theorem getVal_setVal_other (d : PSDict) (k k' : String) (v : JVal) (hk : k' ≠ k) :
    PSDict.getVal (PSDict.setVal d k v) k' = PSDict.getVal d k' := by
  unfold PSDict.setVal
  by_cases h : PSDict.hasKey d k
  · rw [if_pos h]; exact getVal_map_update_other k k' v hk d
  · rw [if_neg h]; exact getVal_append_single_other k k' v hk d

theorem mark_fallback_fst (note : String) (l : List (String × PSDict)) :
    (mark_fallback note l).map Prod.fst = l.map Prod.fst := by
  induction l with
  | nil => rfl
  | cons p l ih =>
    by_cases h : PSDict.hasKey p.2 "error" <;> simp [mark_fallback, h] at * <;> exact ih

theorem mark_fallback_tags (note : String) (l : List (String × PSDict)) :
    ∀ q ∈ mark_fallback note l, PSDict.hasKey q.2 "error" = false →
      PSDict.getVal q.2 "fallback" = some (.b true) ∧
      PSDict.getVal q.2 "note" = some (.s note) := by
  intro q hq herr
  simp only [mark_fallback, List.mem_map] at hq
  obtain ⟨p, hp, hq⟩ := hq
  by_cases h : PSDict.hasKey p.2 "error"
  · rw [if_pos h] at hq
    subst hq
    exact absurd herr (by simp [h])
  · rw [if_neg h] at hq
    subst hq
    constructor
    · rw [getVal_setVal_other _ _ _ _ (by decide)]
      exact getVal_setVal_self _ _ _
    · exact getVal_setVal_self _ _ _

theorem scroll_targets_from_le (t step : ℚ) :
    ∀ (n : ℕ) (cur : ℚ), ∀ p ∈ scroll_targets_from t step n cur, p ≤ t := by
  intro n
  induction n with
  | zero => intro cur p hp; simp [scroll_targets_from] at hp
  | succ n ih =>
    intro cur p hp
    simp only [scroll_targets_from, List.mem_cons] at hp
    rcases hp with rfl | hp
    · split <;> simp_all
    · exact ih _ p hp

theorem scroll_targets_from_length (t step : ℚ) :
    ∀ (n : ℕ) (cur : ℚ), (scroll_targets_from t step n cur).length = n := by
  intro n
  induction n with
  | zero => intro cur; rfl
  | succ n ih => intro cur; simp [scroll_targets_from, ih]

theorem checkpoint_reports_law (env : ScrollEnv) :
    ∀ p ∈ scroll_checkpoints env,
      p.2.total_errors =
        p.2.console_errors.length + p.2.page_errors.length + p.2.browser_logs.length := by
  intro p hp
  simp only [scroll_checkpoints, List.mem_map] at hp
  obtain ⟨q, _, hq⟩ := hp
  subst hq
  rfl

theorem all_kept_records_law (l : List (ℚ × ErrorReport))
    (hl : ∀ p ∈ l, p.2.total_errors =
      p.2.console_errors.length + p.2.page_errors.length + p.2.browser_logs.length) :
    ((l.filterMap fun p =>
        if p.2.total_errors > 0 then some (⟨p.1, p.2⟩ : CheckpointRecord) else none).all
      fun c =>
        (c.errors.total_errors ==
          c.errors.console_errors.length + c.errors.page_errors.length +
            c.errors.browser_logs.length) &&
        (c.errors.total_errors != 0)) = true := by
  induction l with
  | nil => rfl
  | cons p l ih =>
    have hp := hl p (by simp)
    have hl' : ∀ q ∈ l, q.2.total_errors =
        q.2.console_errors.length + q.2.page_errors.length + q.2.browser_logs.length :=
      fun q hq => hl q (by simp [hq])
    by_cases h : p.2.total_errors > 0
    · simp only [List.filterMap_cons, if_pos h, List.all_cons, ih hl', Bool.and_true]
      simp [hp.symm]
      omega
    · simp only [List.filterMap_cons, if_neg h]
      exact ih hl'

/-! ## Claim theorems -/

/-- C1 counterexample: with a 429-marked primary and a succeeding fallback,
the orchestrator returns fallback results tagged under the key
`"fallback"`, and the successful mobile entry carries no `"used_fallback"`
key at all — refuting the claim that successful fallback results are
tagged with a `used_fallback=true` marker. -/
theorem fallback_tag_key_counterexample :
    analyze_pagespeed_with_fallback c1_primary none c1_fb =
      .strategies
        [("mobile",
          [("score", .n 80), ("fallback", .b true),
           ("note", .s "Using fallback analyzer due to API rate limit")]),
         ("desktop",
          [("score", .n 80), ("fallback", .b true),
           ("note", .s "Using fallback analyzer due to API rate limit")])] ∧
    PSDict.getVal
      [("score", JVal.n 80), ("fallback", JVal.b true),
       ("note", JVal.s "Using fallback analyzer due to API rate limit")]
      "used_fallback" = none :=
  ⟨by decide, by decide⟩

/-- C1 (amended): if some primary strategy result carries an error
containing `'429'`, or the primary raises, and the fallback analyzer
itself completes, then the orchestrator returns the fallback results for
all configured strategies, and every successful (error-free) entry is
tagged with `fallback=true` (literal key `"fallback"`, not
`"used_fallback"`) and an explanatory note. -/
theorem fallback_trigger_and_tagging (primary : Except String (List (String × PSDict)))
    (fb : String → PSDict)
    (htrig : (∃ rs, primary = .ok rs ∧ api_failed rs = true) ∨ ∃ e, primary = .error e) :
    ∃ note, analyze_pagespeed_with_fallback primary none fb =
      .strategies (mark_fallback note (simple_analyze_all_strategies fb)) ∧
      (mark_fallback note (simple_analyze_all_strategies fb)).map Prod.fst =
        pagespeed_strategies ∧
      ∀ q ∈ mark_fallback note (simple_analyze_all_strategies fb),
        PSDict.hasKey q.2 "error" = false →
          PSDict.getVal q.2 "fallback" = some (.b true) ∧
          PSDict.getVal q.2 "note" = some (.s note) := by
  have hfst : ∀ note : String,
      (mark_fallback note (simple_analyze_all_strategies fb)).map Prod.fst =
        pagespeed_strategies := by
    intro note
    rw [mark_fallback_fst]
    simp only [simple_analyze_all_strategies, List.map_map]
    exact List.map_id pagespeed_strategies
  rcases htrig with ⟨rs, hrs, hfail⟩ | ⟨e, he⟩
  · subst hrs
    refine ⟨"Using fallback analyzer due to API rate limit", ?_, hfst _, mark_fallback_tags _ _⟩
    simp [analyze_pagespeed_with_fallback, hfail]
  · subst he
    exact ⟨"Using fallback analyzer due to API error", rfl, hfst _, mark_fallback_tags _ _⟩

/-- C1 witness: the amended theorem applied to the concrete 429 scenario. -/
theorem fallback_trigger_and_tagging_witness :
    ∃ note, analyze_pagespeed_with_fallback c1_primary none c1_fb =
      .strategies (mark_fallback note (simple_analyze_all_strategies c1_fb)) ∧
      (mark_fallback note (simple_analyze_all_strategies c1_fb)).map Prod.fst =
        pagespeed_strategies ∧
      ∀ q ∈ mark_fallback note (simple_analyze_all_strategies c1_fb),
        PSDict.hasKey q.2 "error" = false →
          PSDict.getVal q.2 "fallback" = some (.b true) ∧
          PSDict.getVal q.2 "note" = some (.s note) :=
  fallback_trigger_and_tagging c1_primary c1_fb (Or.inl ⟨_, rfl, by decide⟩)

/-- C2: the fallback scorer computes exactly the claimed formula — 100,
minus 30/20/10 for load times over 5000/3000/2000 ms, minus 20/10 for page
areas over 2,000,000/1,000,000 px², clamped to `[0, 100]` (rounding is the
identity on these integers) — and load_time 6000 ms with page area
3,000,000 px² scores exactly 50. -/
theorem fallback_score_matches_spec :
    (∀ m : Metrics, calculate_performance_score m =
      spec_performance_score (m.load_time.getD 0) (m.page_size.getD 0)) ∧
    calculate_performance_score ⟨some 6000, some 3000000⟩ = 50 := by
  constructor
  · intro m
    simp only [calculate_performance_score, spec_performance_score]
    split_ifs <;> decide
  · decide

/-- C3 counterexample: in a scroll run whose only errors are two console
errors seen at the first checkpoint, the merged report's `total_errors` is
1 (the number of checkpoint records), while the claimed flat sum counting
the individual nested entries is 2 — refuting the claim that
`total_errors` counts the entries inside nested `scroll_errors` reports. -/
theorem merged_total_errors_counterexample :
    (scroll_and_capture_errors c3_env).total_errors = 1 ∧
    claim_flat_total (scroll_and_capture_errors c3_env) = 2 ∧
    (scroll_and_capture_errors c3_env).total_errors ≠
      claim_flat_total (scroll_and_capture_errors c3_env) :=
  ⟨by decide, by decide, by decide⟩

/-- C3 (amended): in every report built by `get_console_errors`,
`total_errors` is the sum of the three bucket lengths; in every merged
report built by `scroll_and_capture_errors`, `total_errors` is the sum of
the three top-level bucket lengths plus the NUMBER of `scroll_errors`
checkpoint records (one unit per record, regardless of how many entries
the record's nested report holds); each stored nested report again
satisfies the bucket-sum law and has a positive total. -/
theorem total_errors_bucket_law (env : ScrollEnv) (h : Harvest) :
    (scroll_and_capture_errors env).total_errors =
      (scroll_and_capture_errors env).console_errors.length +
      (scroll_and_capture_errors env).page_errors.length +
      (scroll_and_capture_errors env).browser_logs.length +
      (scroll_and_capture_errors env).scroll_errors.length ∧
    (get_console_errors h).total_errors =
      (get_console_errors h).console_errors.length +
      (get_console_errors h).page_errors.length +
      (get_console_errors h).browser_logs.length ∧
    ((scroll_and_capture_errors env).scroll_errors.all fun c =>
      (c.errors.total_errors ==
        c.errors.console_errors.length + c.errors.page_errors.length +
          c.errors.browser_logs.length) &&
      (c.errors.total_errors != 0)) = true := by
  refine ⟨rfl, rfl, ?_⟩
  exact all_kept_records_law (scroll_checkpoints env) (checkpoint_reports_law env)

/-- C4: the per-step scroll distance is `(totalHeight − viewportHeight) /
steps` when the page is taller than the viewport and `totalHeight / steps`
otherwise; every per-step scroll target is clipped to at most
`totalHeight`; and the final forced scroll targets exactly the page's
total height. -/
theorem scroll_schedule_correct (totalHeight viewportHeight : ℚ) (steps : ℕ)
    (hsteps : 0 < steps) :
    step_distance totalHeight viewportHeight steps =
      (if totalHeight > viewportHeight then (totalHeight - viewportHeight) / steps
       else totalHeight / steps) ∧
    (∀ p ∈ (scroll_page_schedule totalHeight viewportHeight steps).stepTargets,
      p ≤ totalHeight) ∧
    (scroll_page_schedule totalHeight viewportHeight steps).finalTarget = totalHeight := by
  refine ⟨?_, ?_, rfl⟩
  · unfold step_distance
    by_cases hc : totalHeight - viewportHeight ≤ 0
    · rw [if_pos hc, if_neg (by linarith : ¬ totalHeight > viewportHeight)]
    · rw [if_neg hc, if_pos (by linarith : totalHeight > viewportHeight)]
  · intro p hp
    exact scroll_targets_from_le totalHeight _ steps 0 p hp

/-- C4 witness: the schedule theorem applied to a 1000 px page, 400 px
viewport and 10 steps. -/
theorem scroll_schedule_correct_witness :
    (scroll_page_schedule 1000 400 10).finalTarget = 1000 :=
  (scroll_schedule_correct 1000 400 10 (by decide)).2.2

/-- C5 counterexample: in a scroll run where every harvest is empty, the
walk has 10 checkpoints but `scroll_errors` stays empty — refuting the
claim that every checkpoint stores one `{position, report}` record. -/
theorem checkpoint_record_counterexample :
    (scroll_and_capture_errors c5_env).scroll_errors = [] ∧
    (scroll_checkpoints c5_env).length = 10 ∧
    (scroll_and_capture_errors c5_env).scroll_errors.length ≠
      (scroll_checkpoints c5_env).length :=
  ⟨by decide, by decide, by decide⟩

/-- C5 (amended): the walk has exactly `steps = 10` checkpoints; at each
one the harvester runs, and its report is stored verbatim with its scroll
position as a `{position, errors}` record only when that report's
`total_errors` is positive — error-free checkpoints leave no record; the
final report's top-level buckets come verbatim from one last full harvest
performed after scrolling completes. -/
theorem checkpoint_storage_law (env : ScrollEnv) :
    (scroll_and_capture_errors env).scroll_errors =
      ((scroll_checkpoints env).filterMap fun p =>
        if p.2.total_errors > 0 then some ⟨p.1, p.2⟩ else none) ∧
    (scroll_and_capture_errors env).console_errors =
      (get_console_errors env.finalHarvest).console_errors ∧
    (scroll_and_capture_errors env).page_errors =
      (get_console_errors env.finalHarvest).page_errors ∧
    (scroll_and_capture_errors env).browser_logs =
      (get_console_errors env.finalHarvest).browser_logs ∧
    (scroll_checkpoints env).length = scroll_capture_steps := by
  refine ⟨rfl, rfl, rfl, rfl, ?_⟩
  simp only [scroll_checkpoints, List.length_map, List.enum_length]
  unfold scroll_targets
  exact scroll_targets_from_length _ _ _ _

/-- C6 counterexample: a full-page capture that raises leaves the window
at the full-page size (5000 × 8000 is not the desktop profile size) and
returns failure — refuting the claim that the viewport is restored on
every execution in which the capture fails. -/
theorem screenshot_restore_counterexample :
    take_screenshot .desktop true 5000 8000 .raisesExc =
      { success := false, sizeEvents := [(5000, 8000)] } ∧
    (take_screenshot .desktop true 5000 8000 .raisesExc).sizeEvents.getLast? ≠
      some (browser_window_size .desktop) :=
  ⟨by decide, by decide⟩

/-- C6 (amended): on a full-page screenshot the session's window is
resized to the page's scroll width/height and, whenever the capture call
returns (even reporting failure), restored to the profile's configured
size; but when the capture raises, the exception handler returns `False`
without restoring the window. -/
theorem screenshot_resize_restore (v : Viewport) (pageWidth pageHeight : Int)
    (capture : CaptureOutcome) (hc : capture ≠ .raisesExc) :
    take_screenshot v true pageWidth pageHeight capture =
      { success := true
        sizeEvents := [(pageWidth, pageHeight), browser_window_size v] } ∧
    take_screenshot v true pageWidth pageHeight .raisesExc =
      { success := false, sizeEvents := [(pageWidth, pageHeight)] } := by
  cases capture <;> simp_all [take_screenshot]

/-- C6 witness: the amended theorem applied to a mobile session with a
2000 × 7000 page and a capture that returns normally. -/
theorem screenshot_resize_restore_witness :
    take_screenshot .mobile true 2000 7000 .ok =
      { success := true, sizeEvents := [(2000, 7000), browser_window_size .mobile] } :=
  (screenshot_resize_restore .mobile 2000 7000 .ok (by decide)).1

/-- C7 counterexample: two `close()` calls on an open session attempt
`driver.quit()` twice (the source never clears `self.driver`) — refuting
the claim that the quit is attempted at most once per session. -/
theorem close_double_quit_counterexample :
    (BrowserManager.close false (BrowserManager.close false ⟨true, 0⟩)).quitAttempts = 2 ∧
    ¬ (BrowserManager.close false (BrowserManager.close false ⟨true, 0⟩)).quitAttempts ≤ 1 :=
  ⟨by decide, by decide⟩

/-- C7 (amended): `close()` never propagates an exception (a raising
`driver.quit()` is swallowed and does not change the observable outcome);
on a session whose open failed (no driver) it performs no quit attempt at
all; but on a session with a driver every `close()` call — including calls
after the session was already closed — performs exactly one more
`driver.quit()` attempt, because the driver reference is never cleared. -/
theorem close_behavior (s : BrowserSession) (r : Bool) :
    (s.hasDriver = false → BrowserManager.close r s = s) ∧
    (s.hasDriver = true → BrowserManager.close r s = ⟨true, s.quitAttempts + 1⟩) ∧
    (∀ r' : Bool, BrowserManager.close r s = BrowserManager.close r' s) := by
  obtain ⟨d, q⟩ := s
  refine ⟨?_, ?_, ?_⟩ <;> cases r <;> cases d <;> simp [BrowserManager.close]

/-- C7 witness: the amended theorem applied to a failed-open session and
to an open session with three prior quit attempts. -/
theorem close_behavior_witness :
    BrowserManager.close false ⟨false, 0⟩ = ⟨false, 0⟩ ∧
    BrowserManager.close true ⟨true, 3⟩ = ⟨true, 4⟩ :=
  ⟨(close_behavior ⟨false, 0⟩ false).1 rfl, (close_behavior ⟨true, 3⟩ true).2.1 rfl⟩

/-- C8 counterexample: `sanitize_filename` strips `.org` wherever it
occurs, so `http://sub.example.org/path` with the mobile viewport yields
`sub_example_path_mobile`, not the claimed `sub_example_org_path_mobile`. -/
theorem sanitize_filename_counterexample :
    sanitize_filename "http://sub.example.org/path" .mobile = "sub_example_path_mobile" ∧
    sanitize_filename "http://sub.example.org/path" .mobile ≠ "sub_example_org_path_mobile" :=
  ⟨by decide, by decide⟩

/-- C8 (amended): `sanitize_filename` deterministically strips the
protocol, `www.` and the substrings `.com`/`.org`/`.net` wherever they
occur (not only in the TLD position), replaces remaining dots, dashes and
slashes with underscores, and appends the viewport suffix; thus
`https://www.example.com` with the desktop viewport gives
`example_desktop`, and `http://sub.example.org/path` with the mobile
viewport gives `sub_example_path_mobile`. -/
theorem sanitize_filename_examples :
    sanitize_filename "https://www.example.com" .desktop = "example_desktop" ∧
    sanitize_filename "http://sub.example.org/path" .mobile = "sub_example_path_mobile" ∧
    ∀ (url : String) (v : Viewport), ∃ d, sanitize_filename url v = d ++ "_" ++ file_naming_suffix v :=
  ⟨by decide, by decide, fun url v => ⟨_, rfl⟩⟩

/-- C9: contrary to the claim, `validate_urls` never rejects anything —
after the `https://` auto-prefix every URL contains the substring `http`,
so the substring-based scheme check always passes and the `Invalid URL`
reporting branch is unreachable; in particular `ftp://host` is not
rejected but returned as `https://ftp://host`. -/
theorem validate_urls_accepts_any_scheme :
    validate_urls ["ftp://host"] = ["https://ftp://host"] ∧
    ∀ urls : List String, validate_urls urls = urls.map normalizeUrl := by
  have hall : ∀ u : String,
      (allowed_schemes.any fun scheme => strContains (normalizeUrl u) scheme) = true := by
    intro u
    simp [allowed_schemes, List.any, contains_http_normalize u]
  have hmap : ∀ urls : List String, validate_urls urls = urls.map normalizeUrl := by
    intro urls
    induction urls with
    | nil => rfl
    | cons u us ih =>
      simp only [validate_urls, List.filterMap_cons, List.map_cons] at *
      rw [hall u]
      simp only [if_true, ih]
  exact ⟨by decide, hmap⟩

/-- C10: for every input (and also on the internal-exception path, which
returns the default 50), the fallback score lies in
`{50, 60, 70, 80, 90, 100}` and is at least 50, so the lower clamp to 0 is
unreachable. -/
theorem fallback_score_range (raises : Bool) (m : Metrics) :
    calculate_performance_score_run raises m ∈ ([50, 60, 70, 80, 90, 100] : List Int) ∧
    50 ≤ calculate_performance_score_run raises m := by
  cases raises <;>
    simp only [calculate_performance_score_run, calculate_performance_score, if_false, if_true,
      Bool.false_eq_true] <;>
    first
    | decide
    | (split_ifs <;> decide)
